import Mathlib

/-!
Verification of the `PiiRedactionApp` front-end controller (src/App.js).

The component holds four pieces of React state — the selected file (`pdf`),
the derived download URL (`redactedPdf`), the OCR flag (`usedOcr`) and the
loading flag (`isLoading`) — and exposes two operations, `handleUpload` and
`handleRedact`, plus a pure rendering of the JSX tree.

Embedding conventions:
* A JavaScript value that may be `undefined`/`null` is an `Option`.
  JS truthiness of a string is "not the empty string"; of the `usedOcr`
  state (which the code may set to `undefined` via
  `setUsedOcr(response.data.used_ocr)`) it is "equals `some true`".
* The HTTP call's settlement is an explicit `HttpOutcome` parameter:
  `success resp` for a resolved promise, `failure` for a rejected one
  (the `catch` path).
* `handleRedact` returns the final state together with the list of
  `alert` messages raised and whether a network request was dispatched.
  The state in effect while the request is pending is `dispatchState`.
-/

namespace PiiRedaction

/-- An opaque file handle from the platform picker (`event.target.files[i]`).
A `File` object is always truthy in JS, so only presence/absence matters. -/
abbrev FileRef := String

/-- The JSON body of the redaction response: `{ filename, used_ocr }`,
either field possibly absent. -/
structure ResponseData where
  filename : Option String
  used_ocr : Option Bool
deriving Repr, DecidableEq

/-- A resolved HTTP response: status code plus parsed JSON body. -/
structure HttpResponse where
  status : Nat
  data : ResponseData
deriving Repr, DecidableEq

/-- Settlement of the axios POST: resolved with a response, or rejected
(timeout, connection refused, non-2xx rejected by axios, ...). -/
inductive HttpOutcome where
  | success (resp : HttpResponse)
  | failure
deriving Repr, DecidableEq

/-- The four React state hooks of `PiiRedactionApp`. -/
structure UIState where
  pdf : Option FileRef
  redactedPdf : Option String
  usedOcr : Option Bool
  isLoading : Bool
deriving Repr, DecidableEq

/-- `useState(null)`, `useState(null)`, `useState(false)`, `useState(false)`. -/
def initialState : UIState :=
  { pdf := none, redactedPdf := none, usedOcr := some false, isLoading := false }

/-- JS truthiness of a possibly-absent string: truthy iff present and
non-empty. -/
def truthyStr : Option String → Bool
  | none => false
  | some s => !(s == "")

/-- JS truthiness of the `usedOcr` state value (`true`, `false` or
`undefined`). -/
def truthyBool : Option Bool → Bool
  | some b => b
  | none => false

/-- `handleUpload`: `setPdf(event.target.files[0])`. An empty file list
yields `undefined`, i.e. `none`. -/
def handleUpload (s : UIState) (files : List FileRef) : UIState :=
  { s with pdf := files.head? }

/-- The fixed static-file base path prepended to the returned filename. -/
def staticBase : String := "http://127.0.0.1:8000/output/"

/-- Observable outcome of one `handleRedact` invocation: the final state,
the `alert` messages raised, and whether the POST was dispatched. -/
structure RedactRun where
  finalState : UIState
  alerts : List String
  networkCall : Bool
deriving Repr, DecidableEq

/-- The state in effect from `setIsLoading(true)` until the `finally`
block runs, i.e. while the request is pending. -/
def dispatchState (s : UIState) : UIState := { s with isLoading := true }

/-- `handleRedact`: guard on `!pdf`, then POST and branch on the outcome,
with `setIsLoading(false)` in `finally`. -/
def handleRedact (s : UIState) (outcome : HttpOutcome) : RedactRun :=
  if s.pdf.isNone then
    { finalState := s, alerts := ["Please upload a PDF first."], networkCall := false }
  else
    let s1 := dispatchState s
    let settled : UIState × List String :=
      match outcome with
      | .success resp =>
        if resp.status == 200 && truthyStr resp.data.filename then
          ({ s1 with
              redactedPdf := some (staticBase ++ resp.data.filename.getD "")
              usedOcr := resp.data.used_ocr }, [])
        else
          (s1, ["Something went wrong. Please try again."])
      | .failure => (s1, ["Failed to process the PDF."])
    { finalState := { settled.1 with isLoading := false }
      alerts := settled.2
      networkCall := true }

/-- What the JSX tree shows, as a function of the four state hooks:
the action button's disabled flag and label, whether the result block
(`{redactedPdf && ...}`) is rendered, the download link's `href`, and
whether the OCR advisory (`{usedOcr && ...}` inside the result block)
is rendered. -/
structure Render where
  buttonDisabled : Bool
  buttonLabel : String
  resultShown : Bool
  downloadHref : Option String
  ocrAdvisoryShown : Bool
deriving Repr, DecidableEq

/-- The pure rendering of `PiiRedactionApp`'s JSX for a given state. -/
def render (s : UIState) : Render :=
  { buttonDisabled := s.isLoading
    buttonLabel := if s.isLoading then "Processing..." else "Redact PDF"
    resultShown := truthyStr s.redactedPdf
    downloadHref := if truthyStr s.redactedPdf then s.redactedPdf else none
    ocrAdvisoryShown := truthyStr s.redactedPdf && truthyBool s.usedOcr }

lemma staticBase_append_ne_empty (f : String) : staticBase ++ f ≠ "" := by
  intro h
  have h2 : (staticBase ++ f).data = [] := by rw [h]
  rw [String.data_append] at h2
  have h3 : staticBase.data = [] := (List.append_eq_nil.mp h2).1
  exact absurd h3 (by decide)

lemma truthyBool_eq_true_iff (o : Option Bool) : truthyBool o = true ↔ o = some true := by
  cases o with
  | none => simp [truthyBool]
  | some b => cases b <;> simp [truthyBool]

/-- C1: with no file selected, `handleRedact` raises exactly the
"Please upload a PDF first." alert, dispatches no network call, and
leaves the whole UI state unchanged. -/
theorem c1_submit_without_file (s : UIState) (o : HttpOutcome) (h : s.pdf = none) :
    (handleRedact s o).alerts = ["Please upload a PDF first."] ∧
    (handleRedact s o).networkCall = false ∧
    (handleRedact s o).finalState = s := by
  simp [handleRedact, h]

theorem c1_submit_without_file_witness :
    initialState.pdf = none ∧
    ((handleRedact initialState .failure).alerts = ["Please upload a PDF first."] ∧
     (handleRedact initialState .failure).networkCall = false ∧
     (handleRedact initialState .failure).finalState = initialState) :=
  ⟨rfl, c1_submit_without_file initialState .failure rfl⟩

/-- C2: for a 200 response whose body carries a non-empty `filename`,
the stored download URL is exactly the fixed static base concatenated
with that filename. -/
theorem c2_download_url (s : UIState) (resp : HttpResponse) (f : String)
    (hpdf : s.pdf ≠ none) (hstatus : resp.status = 200)
    (hfile : resp.data.filename = some f) (hne : f ≠ "") :
    (handleRedact s (.success resp)).finalState.redactedPdf =
      some (staticBase ++ f) := by
  obtain ⟨p, hp⟩ := Option.ne_none_iff_exists'.mp hpdf
  simp [handleRedact, hp, hstatus, hfile, truthyStr, hne]

theorem c2_download_url_witness :
    ({ initialState with pdf := some "report.pdf" } : UIState).pdf ≠ none ∧
    (handleRedact { initialState with pdf := some "report.pdf" }
        (.success ⟨200, some "report_redacted.pdf", some true⟩)).finalState.redactedPdf =
      some ("http://127.0.0.1:8000/output/" ++ "report_redacted.pdf") :=
  ⟨by decide,
   c2_download_url { initialState with pdf := some "report.pdf" }
     ⟨200, some "report_redacted.pdf", some true⟩ "report_redacted.pdf"
     (by decide) rfl rfl (by decide)⟩

/-- C3: whenever `handleRedact` dispatches the request (a file is
selected), the in-flight flag is `false` in the final state on every
outcome, and `true` in the state in effect while the request is
pending. -/
theorem c3_loading_cleared (s : UIState) (o : HttpOutcome) (h : s.pdf ≠ none) :
    (handleRedact s o).networkCall = true ∧
    (handleRedact s o).finalState.isLoading = false ∧
    (dispatchState s).isLoading = true := by
  obtain ⟨p, hp⟩ := Option.ne_none_iff_exists'.mp h
  cases o <;> simp [handleRedact, hp, dispatchState]

theorem c3_loading_cleared_witness :
    ({ initialState with pdf := some "a.pdf" } : UIState).pdf ≠ none ∧
    ((handleRedact { initialState with pdf := some "a.pdf" } .failure).networkCall = true ∧
     (handleRedact { initialState with pdf := some "a.pdf" } .failure).finalState.isLoading
        = false ∧
     (dispatchState { initialState with pdf := some "a.pdf" }).isLoading = true) :=
  ⟨by decide,
   c3_loading_cleared { initialState with pdf := some "a.pdf" } .failure (by decide)⟩

/-- C4: for a resolved response with no usable filename (field missing,
empty string, or non-200 status), `handleRedact` raises exactly the
"Something went wrong. Please try again." alert and leaves the selected
file, the download URL and the OCR flag untouched. -/
theorem c4_no_usable_filename (s : UIState) (resp : HttpResponse)
    (hpdf : s.pdf ≠ none)
    (hbad : resp.status ≠ 200 ∨ resp.data.filename = none ∨ resp.data.filename = some "") :
    (handleRedact s (.success resp)).alerts = ["Something went wrong. Please try again."] ∧
    (handleRedact s (.success resp)).finalState.redactedPdf = s.redactedPdf ∧
    (handleRedact s (.success resp)).finalState.usedOcr = s.usedOcr ∧
    (handleRedact s (.success resp)).finalState.pdf = s.pdf := by
  obtain ⟨p, hp⟩ := Option.ne_none_iff_exists'.mp hpdf
  have hguard : (resp.status == 200 && truthyStr resp.data.filename) = false := by
    rcases hbad with h | h | h <;> simp [truthyStr, h]
  simp [handleRedact, hp, hguard, dispatchState]

theorem c4_no_usable_filename_witness :
    ({ initialState with pdf := some "a.pdf" } : UIState).pdf ≠ none ∧
    ((handleRedact { initialState with pdf := some "a.pdf" }
        (.success ⟨200, none, none⟩)).alerts
        = ["Something went wrong. Please try again."] ∧
     (handleRedact { initialState with pdf := some "a.pdf" }
        (.success ⟨200, none, none⟩)).finalState.redactedPdf = none ∧
     (handleRedact { initialState with pdf := some "a.pdf" }
        (.success ⟨200, none, none⟩)).finalState.usedOcr = some false ∧
     (handleRedact { initialState with pdf := some "a.pdf" }
        (.success ⟨200, none, none⟩)).finalState.pdf = some "a.pdf") :=
  ⟨by decide,
   c4_no_usable_filename { initialState with pdf := some "a.pdf" }
     ⟨200, none, none⟩ (by decide) (Or.inr (Or.inl rfl))⟩

/-- C5: for a rejected request (transport failure), `handleRedact`
raises exactly the "Failed to process the PDF." alert and leaves the
selected file, the download URL and the OCR flag untouched. -/
theorem c5_transport_failure (s : UIState) (hpdf : s.pdf ≠ none) :
    (handleRedact s .failure).alerts = ["Failed to process the PDF."] ∧
    (handleRedact s .failure).finalState.redactedPdf = s.redactedPdf ∧
    (handleRedact s .failure).finalState.usedOcr = s.usedOcr ∧
    (handleRedact s .failure).finalState.pdf = s.pdf := by
  obtain ⟨p, hp⟩ := Option.ne_none_iff_exists'.mp hpdf
  simp [handleRedact, hp, dispatchState]

theorem c5_transport_failure_witness :
    ({ initialState with pdf := some "a.pdf" } : UIState).pdf ≠ none ∧
    ((handleRedact { initialState with pdf := some "a.pdf" } .failure).alerts
        = ["Failed to process the PDF."] ∧
     (handleRedact { initialState with pdf := some "a.pdf" } .failure).finalState.redactedPdf
        = none ∧
     (handleRedact { initialState with pdf := some "a.pdf" } .failure).finalState.usedOcr
        = some false ∧
     (handleRedact { initialState with pdf := some "a.pdf" } .failure).finalState.pdf
        = some "a.pdf") :=
  ⟨by decide, c5_transport_failure { initialState with pdf := some "a.pdf" } (by decide)⟩

/-- C6: after a successful response (status 200, non-empty filename),
the rendered OCR advisory is shown iff the response body's `used_ocr`
field is `true`; `false` or absent both hide it. -/
theorem c6_ocr_advisory (s : UIState) (resp : HttpResponse) (f : String)
    (hpdf : s.pdf ≠ none) (hstatus : resp.status = 200)
    (hfile : resp.data.filename = some f) (hne : f ≠ "") :
    (render (handleRedact s (.success resp)).finalState).ocrAdvisoryShown = true ↔
      resp.data.used_ocr = some true := by
  obtain ⟨p, hp⟩ := Option.ne_none_iff_exists'.mp hpdf
  simp [handleRedact, hp, hstatus, hfile, truthyStr, hne, render,
    staticBase_append_ne_empty f, truthyBool_eq_true_iff]

theorem c6_ocr_advisory_witness :
    ({ initialState with pdf := some "report.pdf" } : UIState).pdf ≠ none ∧
    ((render (handleRedact { initialState with pdf := some "report.pdf" }
        (.success ⟨200, some "report_redacted.pdf", some true⟩)).finalState).ocrAdvisoryShown
      = true ↔ (some true : Option Bool) = some true) :=
  ⟨by decide,
   c6_ocr_advisory { initialState with pdf := some "report.pdf" }
     ⟨200, some "report_redacted.pdf", some true⟩ "report_redacted.pdf"
     (by decide) rfl rfl (by decide)⟩

/-- C7: `handleUpload` replaces only the selected-file field (with the
first entry of the picker's file list) and leaves the download URL, the
OCR flag and the in-flight flag unchanged. -/
theorem c7_upload_frame (s : UIState) (files : List FileRef) :
    (handleUpload s files).pdf = files.head? ∧
    (handleUpload s files).redactedPdf = s.redactedPdf ∧
    (handleUpload s files).usedOcr = s.usedOcr ∧
    (handleUpload s files).isLoading = s.isLoading := by
  simp [handleUpload]

/-- C8 counterexample: in the in-flight state the action control is
disabled, but its label is the ASCII string "Processing..." — not the
claimed "Processing…" with a typographic ellipsis. -/
theorem c8_label_counterexample :
    (render { initialState with isLoading := true }).buttonDisabled = true ∧
    (render { initialState with isLoading := true }).buttonLabel ≠ "Processing…" := by
  constructor
  · rfl
  · decide

/-- C8 (amended): the rendering is a pure function of the state in which
the action control is disabled with label "Processing..." (three ASCII
dots) exactly when the in-flight flag is true, and enabled with label
"Redact PDF" exactly when it is false. -/
theorem c8_button_rendering (s : UIState) :
    (((render s).buttonDisabled = true ∧ (render s).buttonLabel = "Processing...") ↔
      s.isLoading = true) ∧
    (((render s).buttonDisabled = false ∧ (render s).buttonLabel = "Redact PDF") ↔
      s.isLoading = false) := by
  cases h : s.isLoading <;> simp [render, h]

/-- C9: an empty picker file list stores `none` as the selected file, so
a subsequent `handleRedact` dispatches nothing and raises the
"Please upload a PDF first." alert. -/
theorem c9_empty_file_list (s : UIState) (o : HttpOutcome) :
    (handleUpload s []).pdf = none ∧
    (handleRedact (handleUpload s []) o).networkCall = false ∧
    (handleRedact (handleUpload s []) o).alerts = ["Please upload a PDF first."] := by
  simp [handleUpload, handleRedact]

/-- C10: whenever a download URL is present, the result block stays
rendered — with the download link pointing at it and the OCR advisory
tracking the OCR flag — for either value of the in-flight flag. -/
theorem c10_result_survives_loading (s : UIState) (b : Bool)
    (h : truthyStr s.redactedPdf = true) :
    (render { s with isLoading := b }).resultShown = true ∧
    (render { s with isLoading := b }).downloadHref = s.redactedPdf ∧
    (render { s with isLoading := b }).ocrAdvisoryShown = truthyBool s.usedOcr := by
  simp [render, h]

theorem c10_result_survives_loading_witness :
    truthyStr ({ pdf := some "report.pdf",
                 redactedPdf := some "http://127.0.0.1:8000/output/report_redacted.pdf",
                 usedOcr := some true, isLoading := false } : UIState).redactedPdf = true ∧
    ((render { ({ pdf := some "report.pdf",
                  redactedPdf := some "http://127.0.0.1:8000/output/report_redacted.pdf",
                  usedOcr := some true, isLoading := false } : UIState)
                with isLoading := true }).resultShown = true ∧
     (render { ({ pdf := some "report.pdf",
                  redactedPdf := some "http://127.0.0.1:8000/output/report_redacted.pdf",
                  usedOcr := some true, isLoading := false } : UIState)
                with isLoading := true }).downloadHref
        = some "http://127.0.0.1:8000/output/report_redacted.pdf" ∧
     (render { ({ pdf := some "report.pdf",
                  redactedPdf := some "http://127.0.0.1:8000/output/report_redacted.pdf",
                  usedOcr := some true, isLoading := false } : UIState)
                with isLoading := true }).ocrAdvisoryShown = truthyBool (some true)) :=
  ⟨by decide,
   c10_result_survives_loading
     { pdf := some "report.pdf",
       redactedPdf := some "http://127.0.0.1:8000/output/report_redacted.pdf",
       usedOcr := some true, isLoading := false } true (by decide)⟩

end PiiRedaction
